import Mathlib

/-!
Verification of the `precord` registration core against its specification.

The Python sources are embedded shallowly:

* `src/precord/values.py`  — pure value generation (state tokens, nicknames, roles);
* `src/precord/database.py` — the registration store: SQL prepared statements are
  modelled as pure operations on a `Store` value whose `pending`/`active` tables
  are lists of rows (SQL row order is unspecified, so upsert is modelled as
  replace-by-key);
* `src/precord/web.py` — the `join` (begin) and `redirect` (complete) handlers,
  with the out-of-scope transport glue (JWT verification, Pretix API, Discord
  HTTP calls) abstracted into input parameters: the external linking exchange is
  a `Except Unit String` argument and the membership-grant PUT a `Bool` argument.

Python `dict` indexing that can raise `KeyError` is embedded as `Except String`
with the missing key as the error payload.
-/

namespace Precord

/-! ### values.py -/

/-- Source: `STATE_TOKEN_CHARACTERS = string.ascii_letters + string.digits + ".,-:"`
(values.py line 12). -/
def STATE_TOKEN_CHARACTERS : List Char :=
  "abcdefghijklmnopqrstuvwxyzABCDEFGHIJKLMNOPQRSTUVWXYZ0123456789.,-:".toList

/-- Source: `generate_state_token` (values.py lines 42-44): 23 draws of `secrets.choice`
from `STATE_TOKEN_CHARACTERS`.  The cryptographic random source is modelled as a
function `choice : Nat → Nat` giving the raw draw for each of the 23 positions;
`secrets.choice` always returns an element of the sequence, modelled by reducing
the draw modulo the alphabet size. -/
def generate_state_token (choice : Nat → Nat) : String :=
  String.mk ((List.range 23).map fun i =>
    STATE_TOKEN_CHARACTERS.get
      ⟨choice i % STATE_TOKEN_CHARACTERS.length,
       Nat.mod_lt _ (by decide)⟩)

/-- A Python `dict[str, str]` (the per-order answers mapping), embedded as an
association list with unique keys looked up front-to-back. -/
def AnswerMap : Type := List (String × String)

/-- Python `key in answers` / `answers[key]` lookup returning the first binding. -/
def AnswerMap.lookup : AnswerMap → String → Option String
  | [], _ => none
  | (k, v) :: rest, key => if k = key then some v else AnswerMap.lookup rest key

/-- Python `answers.get(key, dflt)`. -/
def AnswerMap.getD (m : AnswerMap) (key dflt : String) : String :=
  (m.lookup key).getD dflt

/-- Source: `generate_nickname` (values.py lines 47-53).  `answers["east_asian_name_order"]`
is a raw `dict` index and raises `KeyError` when the key is absent: modelled as
`Except.error "east_asian_name_order"`. -/
def generate_nickname (answers : AnswerMap) : Except String (Option String) :=
  if (answers.lookup "primary_name").isNone then
    Except.ok none
  else
    match answers.lookup "east_asian_name_order" with
    | none => Except.error "east_asian_name_order"
    | some flag =>
      let primary := (answers.lookup "primary_name").getD ""
      let additional := answers.getD "additional_names" ""
      if flag = "True" then
        Except.ok (some (additional ++ " " ++ primary))
      else
        Except.ok (some (primary ++ " " ++ additional))

/-- Source: `ROLE_IDS` (values.py lines 14-25). -/
def ROLE_IDS : List (String × Int) :=
  [("volunteer", 1307641013493305379),
   ("core", 1307641013493305380),
   ("av", 1307641013493305378),
   ("specialist", 1307641013258420242),
   ("education", 1307641013258420238),
   ("scientific", 1307641013258420241),
   ("devoops", 1307641013258420240),
   ("speaker", 1307641013493305377),
   ("sprints", 1307641013258420237),
   ("sponsor", 1307641013493305376)]

/-- Lookup `ROLE_IDS[name]`; all uses in the source index existing keys. -/
def roleId (name : String) : Int :=
  ((ROLE_IDS.lookup name).getD 0)

/-- Source: `ITEM_IDS["team_member"]` (values.py line 27). -/
def ITEM_IDS_team_member : List Int := [569202, 637767]

/-- Source: `ITEM_IDS["speaker"]` (values.py line 28). -/
def ITEM_IDS_speaker : List Int := [569203, 637766]

/-- Source: `ITEM_IDS["sprints"]` (values.py line 29). -/
def ITEM_IDS_sprints : List Int := [569209, 569215, 569216]

/-- Source: `TEAM_ROLES` (values.py lines 31-39). -/
def TEAM_ROLES : List (String × List Int) :=
  [("Volunteer Team", [roleId "volunteer"]),
   ("Core Team", [roleId "core"]),
   ("AV Team", [roleId "av"]),
   ("Education", [roleId "specialist", roleId "education"]),
   ("Scientific Python", [roleId "specialist", roleId "scientific"]),
   ("All Things Data", [roleId "specialist", roleId "scientific"]),
   ("DevOops", [roleId "specialist", roleId "devoops"])]

/-- Python `set.add`: the accumulator keeps set semantics over a list. -/
def setAdd (s : List Int) (x : Int) : List Int :=
  if x ∈ s then s else s ++ [x]

/-- Python `set.update`. -/
def setUpdate (s : List Int) (xs : List Int) : List Int :=
  xs.foldl setAdd s

/-- One iteration of the `for item in items` loop body of `generate_role_list`
(values.py lines 60-66).  `TEAM_ROLES[answers["team"]]` raises `KeyError` when
either the `"team"` answer is absent or the team value is unknown. -/
def roleStep (answers : AnswerMap) (roles : List Int) (item : Int) :
    Except String (List Int) := do
  let roles ←
    if item ∈ ITEM_IDS_team_member then
      match answers.lookup "team" with
      | none => Except.error "team"
      | some team =>
        match TEAM_ROLES.lookup team with
        | none => Except.error team
        | some teamRoles => pure (setUpdate roles teamRoles)
    else
      pure roles
  let roles := if item ∈ ITEM_IDS_speaker then setAdd roles (roleId "speaker") else roles
  let roles := if item ∈ ITEM_IDS_sprints then setAdd roles (roleId "sprints") else roles
  pure roles

/-- Source: `generate_role_list` (values.py lines 56-71).  The Python argument is a
`set[int]` iterated in unspecified order; it is embedded as the list of its
elements. -/
def generate_role_list (items : List Int) (answers : AnswerMap) :
    Except String (List Int) := do
  let roles ← items.foldlM (roleStep answers) []
  let roles := if answers.getD "sponsor" "" = "True" then setAdd roles (roleId "sponsor") else roles
  pure roles

/-! ### database.py — the registration store

The two tables are embedded as lists of rows.  SQL makes no promise about row
order, and every query the source issues is either keyed by the composite
primary key `(order_code, position)` or by a state token assumed unique, so
`INSERT ... ON CONFLICT ... DO UPDATE` is modelled as remove-rows-with-the-key
then append. -/

/-- A row of the `pending` table (columns per `prepare_insert_pending`,
database.py lines 34-45).  Timestamps are UTC instants modelled as integer
seconds. -/
structure PendingRow where
  order_code : String
  position : Int
  state_token : String
  created : Int
  nickname : Option String
  roles : List Int
deriving DecidableEq, Repr

/-- A row of the `active` table (columns per the tuple passed to
`insert_active.executemany`, web.py lines 285-296). -/
structure ActiveRow where
  order_code : String
  position : Int
  discord_id : String
  created : Int
  nickname : Option String
  roles : List Int
deriving DecidableEq, Repr

/-- The registration store: the two tables owned by the database. -/
structure Store where
  pending : List PendingRow
  active : List ActiveRow
deriving DecidableEq, Repr

/-- Does a pending row carry the given composite key? -/
def PendingRow.hasKey (p : PendingRow) (oc : String) (pos : Int) : Bool :=
  p.order_code = oc ∧ p.position = pos

/-- Does an active row carry the given composite key? -/
def ActiveRow.hasKey (a : ActiveRow) (oc : String) (pos : Int) : Bool :=
  a.order_code = oc ∧ a.position = pos

/-- Statement `InsertPending` (database.py lines 34-47): `INSERT INTO pending ...
ON CONFLICT (order_code, position) DO UPDATE SET ...` — upsert over the
composite key. -/
def insertPending (s : Store) (r : PendingRow) : Store :=
  { s with pending :=
      s.pending.filter (fun p => ¬ p.hasKey r.order_code r.position) ++ [r] }

/-- Statement `SelectPendingByStateToken` (database.py lines 49-58):
`SELECT ... FROM pending WHERE state_token = $1`, fetched with `fetchrow`. -/
def selectPendingByStateToken (s : Store) (tok : String) : Option PendingRow :=
  s.pending.find? (fun p => p.state_token = tok)

/-- Statement `DeletePending` (database.py lines 60-66):
`DELETE FROM pending WHERE order_code = $1 AND position = $2`. -/
def deletePending (s : Store) (oc : String) (pos : Int) : Store :=
  { s with pending := s.pending.filter (fun p => ¬ p.hasKey oc pos) }

/-- Modelled from the spec: `find_active_by_identity(identity) -> optional
active record`.  The `SelectActive` statement is declared (database.py line 20)
and used by `join` (web.py line 183) but its SQL is never prepared in
`database_setup`; this follows §4.2 of the spec. -/
def selectActive (s : Store) (oc : String) (pos : Int) : Option ActiveRow :=
  s.active.find? (fun a => a.hasKey oc pos)

/-- Modelled from the spec: `upsert_active(identity, external_account_id,
created_at, nickname, roles)`, "same conflict semantics as pending upsert"
(§4.2).  The `InsertActive` statement is declared (database.py line 19) and
used by `redirect` (web.py line 285) but its SQL is never prepared in
`database_setup`. -/
def insertActive (s : Store) (r : ActiveRow) : Store :=
  { s with active :=
      s.active.filter (fun a => ¬ a.hasKey r.order_code r.position) ++ [r] }

/-! ### Service registry (svcs) as set up by `lifespan` / `database_setup` -/

/-- The service types requested from the `svcs` registry by the two handlers. -/
inductive ServiceKey where
  | settingsKey
  | asyncClientKey
  | connectionKey
  | environmentKey
  | errorTemplateKey
  | insertPendingKey
  | selectPendingByStateTokenKey
  | deletePendingKey
  | insertActiveKey
  | selectActiveKey
deriving DecidableEq, Repr

/-- The factories `database_setup` registers (database.py lines 23-66):
`Connection`, `InsertPending`, `SelectPendingByStateToken`, `DeletePending` —
and nothing else. -/
def database_setup_registered : List ServiceKey :=
  [.connectionKey, .insertPendingKey, .selectPendingByStateTokenKey, .deletePendingKey]

/-- Everything registered by the `lifespan` startup hook (web.py lines 72-94):
`Settings`, `httpx.AsyncClient`, the services of `database_setup`,
`Environment` and `ErrorTemplate`. -/
def lifespan_registered : List ServiceKey :=
  [.settingsKey, .asyncClientKey] ++ database_setup_registered ++
    [.environmentKey, .errorTemplateKey]

/-- Lookup `container.aget(T)`: returns the service when a factory for `T` is
registered and raises `ServiceNotFoundError` (modelled as `Except.error`)
otherwise. -/
def aget (registered : List ServiceKey) (k : ServiceKey) : Except ServiceKey ServiceKey :=
  if k ∈ registered then Except.ok k else Except.error k

/-! ### web.py — the two handlers -/

/-- Source: `Settings` (web.py lines 28-60), restricted to the field the registration
core reads.  `state_token_lifetime: timedelta = timedelta(minutes=1800)`,
modelled in seconds. -/
structure Settings where
  state_token_lifetime : Int := 1800 * 60
deriving DecidableEq, Repr

/-- The `Settings()` value produced from an environment that leaves
`precord_state_token_lifetime` unset: the field default applies. -/
def defaultSettings : Settings := {}

/-- Source: `STATE_TOKEN_LIFETIME = timedelta(minutes=30)` (web.py line 63), in
seconds. -/
def STATE_TOKEN_LIFETIME : Int := 30 * 60

/-- Observable outcome of the `join` handler restricted to the registration
core (the early transport-validation error pages are outside the embedding). -/
inductive BeginOutcome where
  /-- Redirect to the welcome channel (web.py lines 185-188): identity already
  active; no token issued. -/
  | alreadyActive
  /-- Redirect into the Discord OAuth2 flow carrying the state token
  (web.py lines 209-216). -/
  | started (state_token : String)
deriving DecidableEq, Repr

/-- Observable outcome of the `redirect` handler. -/
inductive CompleteOutcome where
  /-- "Registration is in invalid state" (web.py lines 252-255). -/
  | invalidToken
  /-- "Registration has expired" (web.py lines 260-263). -/
  | expired
  /-- `raise_for_status` on the Discord token exchange or user fetch
  (web.py lines 275, 282) propagates as an exception. -/
  | linkFailed
  /-- "Discord registration request failed" (web.py lines 316-319). -/
  | grantFailed
  /-- Redirect to the welcome channel (web.py lines 321-324). -/
  | completed (discord_id : String)
deriving DecidableEq, Repr

/-- The `join` handler (web.py lines 123-216) from the point its inputs are
established: the JWT has verified and the Pretix order fetched, yielding
`order_code = payload["order"]`, `position = int(payload["position"])`, the
non-canceled item set and the answers mapping.  `generate_state_token()` is
the nondeterministically drawn `state_token` parameter and
`datetime.now(tz=UTC)` is `now`.  A `KeyError` raised by nickname or role
derivation propagates (HTTP 500). -/
def join (s : Store) (order_code : String) (position : Int)
    (items : List Int) (answers : AnswerMap) (state_token : String) (now : Int) :
    Except String (BeginOutcome × Store) :=
  match selectActive s order_code position with
  | some _ => Except.ok (BeginOutcome.alreadyActive, s)
  | none => do
    let nickname ← generate_nickname answers
    let roles ← generate_role_list items answers
    let s := insertPending s
      { order_code := order_code, position := position, state_token := state_token,
        created := now, nickname := nickname, roles := roles }
    pure (BeginOutcome.started state_token, s)

/-- The `redirect` handler (web.py lines 219-324).  `settings` is acquired by
the handler but only its Discord fields (outside the embedding) are read; the
expiry check uses the module constant `STATE_TOKEN_LIFETIME`.  The Discord
token exchange plus user fetch is the `link` parameter (`Except.ok id` iff
both HTTP calls succeed); the guild-member PUT succeeding with 200/201/204 is
the `grantOk` parameter. -/
def redirect (settings : Settings) (s : Store) (state : String)
    (link : Except Unit String) (grantOk : Bool) (now : Int) :
    CompleteOutcome × Store :=
  match selectPendingByStateToken s state with
  | none => (CompleteOutcome.invalidToken, s)
  | some row =>
    let s := deletePending s row.order_code row.position
    if now - row.created > STATE_TOKEN_LIFETIME then
      (CompleteOutcome.expired, s)
    else
      match link with
      | Except.error _ => (CompleteOutcome.linkFailed, s)
      | Except.ok discord_id =>
        let s := insertActive s
          { order_code := row.order_code, position := row.position,
            discord_id := discord_id, created := row.created,
            nickname := row.nickname, roles := row.roles }
        if grantOk then (CompleteOutcome.completed discord_id, s)
        else (CompleteOutcome.grantFailed, s)

/-- Number of pending rows carrying a given composite key. -/
def keyCount (s : Store) (oc : String) (pos : Int) : Nat :=
  (s.pending.filter (fun p => p.hasKey oc pos)).length

/-- Pending rows carrying a given state token. -/
def tokenRows (s : Store) (tok : String) : List PendingRow :=
  s.pending.filter (fun p => p.state_token = tok)

/-! ### Helper lemmas -/

theorem except_bind_ok {α β ε : Type} (a : α) (f : α → Except ε β) :
    (Except.ok a >>= f) = f a := rfl

theorem except_bind_error {α β ε : Type} (e : ε) (f : α → Except ε β) :
    ((Except.error e : Except ε α) >>= f) = Except.error e := rfl

theorem except_pure_eq {α ε : Type} (a : α) :
    (pure a : Except ε α) = Except.ok a := rfl

theorem mem_eq_of_length_le_one {α : Type} {l : List α} (h : l.length ≤ 1)
    {a b : α} (ha : a ∈ l) (hb : b ∈ l) : a = b := by
  cases l with
  | nil => cases ha
  | cons x t =>
    cases t with
    | nil =>
      rw [List.mem_singleton] at ha hb
      rw [ha, hb]
    | cons y u => simp at h

theorem pendingRow_hasKey_self (p : PendingRow) : p.hasKey p.order_code p.position = true := by
  simp [PendingRow.hasKey]

theorem activeRow_hasKey_self (a : ActiveRow) : a.hasKey a.order_code a.position = true := by
  simp [ActiveRow.hasKey]

theorem mem_insertPending {s : Store} {r p : PendingRow}
    (hp : p ∈ (insertPending s r).pending) :
    p = r ∨ (p ∈ s.pending ∧ ¬ p.hasKey r.order_code r.position = true) := by
  simp only [insertPending, List.mem_append, List.mem_filter, List.mem_singleton] at hp
  rcases hp with ⟨hmem, hkey⟩ | rfl
  · exact Or.inr ⟨hmem, by simpa using hkey⟩
  · exact Or.inl rfl

theorem insertPending_active (s : Store) (r : PendingRow) :
    (insertPending s r).active = s.active := rfl

theorem insertActive_pending (s : Store) (r : ActiveRow) :
    (insertActive s r).pending = s.pending := rfl

theorem deletePending_active (s : Store) (oc : String) (pos : Int) :
    (deletePending s oc pos).active = s.active := rfl

/-- A keyed upsert leaves exactly one row with the inserted key. -/
theorem keyCount_insertPending (s : Store) (r : PendingRow) :
    keyCount (insertPending s r) r.order_code r.position = 1 := by
  simp [keyCount, insertPending, List.filter_append, List.filter_filter,
    pendingRow_hasKey_self]

/-- Lemma: `find?` over a keyed upsert result: the freshly inserted row is found when
it matches and every surviving old row fails the predicate. -/
theorem find?_insertPending_eq_self {s : Store} {r : PendingRow} {q : PendingRow → Bool}
    (hr : q r = true)
    (hold : ∀ p ∈ s.pending, ¬ p.hasKey r.order_code r.position = true → q p = false) :
    (insertPending s r).pending.find? q = some r := by
  simp only [insertPending, List.find?_append]
  have hnone : (s.pending.filter fun p => ¬ p.hasKey r.order_code r.position).find? q = none := by
    rw [List.find?_eq_none]
    intro p hp
    rw [List.mem_filter] at hp
    have := hold p hp.1 (by simpa using hp.2)
    simp [this]
  rw [hnone]
  simp [List.find?_cons, hr]

theorem find?_insertActive_eq_self (s : Store) (r : ActiveRow) :
    selectActive (insertActive s r) r.order_code r.position = some r := by
  simp only [selectActive, insertActive, List.find?_append]
  have hnone :
      (s.active.filter fun a => ¬ a.hasKey r.order_code r.position).find?
        (fun a => a.hasKey r.order_code r.position) = none := by
    rw [List.find?_eq_none]
    intro a ha
    rw [List.mem_filter] at ha
    simpa using ha.2
  rw [hnone]
  simp [List.find?_cons, activeRow_hasKey_self]

/-! ## Claim C7 — state-token shape -/

/-- C7: the claim states the alphabet has exactly 64 symbols; false: the
source alphabet `string.ascii_letters + string.digits + ".,-:"` has
52 + 10 + 4 = 66 symbols. -/
theorem C7_counterexample : STATE_TOKEN_CHARACTERS.length ≠ 64 := by decide

/-- C7 (amended): `generate_state_token` always returns a string of exactly 23
characters, each drawn from the fixed 66-symbol alphabet
`STATE_TOKEN_CHARACTERS` (upper- and lower-case letters, digits, and four
punctuation symbols), with no error conditions. -/
theorem C7_token_shape (choice : Nat → Nat) :
    (generate_state_token choice).length = 23 ∧
    (∀ c ∈ (generate_state_token choice).data, c ∈ STATE_TOKEN_CHARACTERS) ∧
    STATE_TOKEN_CHARACTERS.length = 66 ∧ STATE_TOKEN_CHARACTERS.Nodup := by
  refine ⟨?_, ?_, by decide, by decide⟩
  · show ((List.range 23).map _).length = 23
    simp
  · intro c hc
    have hc' : c ∈ (List.range 23).map (fun i =>
        STATE_TOKEN_CHARACTERS.get
          ⟨choice i % STATE_TOKEN_CHARACTERS.length, Nat.mod_lt _ (by decide)⟩) := hc
    rcases List.mem_map.mp hc' with ⟨i, _, rfl⟩
    exact List.get_mem _ _ _

/-! ## Claim C8 — nickname derivation -/

/-- C8: the claim states that whenever a primary-name answer exists, nickname
derivation succeeds for every such mapping, and that `primary_name = "Ada"`,
`additional_names = "J."` without the east-asian flag yields `"Ada J."`;
false: `answers["east_asian_name_order"]` is a raw dict index, so this very
mapping raises `KeyError` instead. -/
theorem C8_counterexample :
    generate_nickname [("primary_name", "Ada"), ("additional_names", "J.")] =
      Except.error "east_asian_name_order" ∧
    generate_nickname [("primary_name", "Ada"), ("additional_names", "J.")] ≠
      Except.ok (some "Ada J.") := by
  refine ⟨rfl, fun h => ?_⟩
  have h' : (Except.error "east_asian_name_order" : Except String (Option String)) =
      Except.ok (some "Ada J.") := h
  exact Except.noConfusion h'

/-- C8 (amended): nickname derivation returns absent exactly when no
primary-name answer exists; when a primary name exists it additionally
requires an east-asian-name-order answer (raising a `KeyError` on that key
otherwise), and with both present it concatenates the primary name with any
additional-names answer, family-name-first when the flag equals the literal
string `"True"` and given-name-first otherwise — in particular
`primary_name = "Ada"`, `additional_names = "J."` yields `"Ada J."` with the
flag `"False"` and `"J. Ada"` with the flag `"True"`. -/
theorem C8_nickname_amended (answers : AnswerMap) :
    (answers.lookup "primary_name" = none →
      generate_nickname answers = Except.ok none) ∧
    (answers.lookup "primary_name" ≠ none →
      answers.lookup "east_asian_name_order" = none →
      generate_nickname answers = Except.error "east_asian_name_order") ∧
    (∀ pn flag, answers.lookup "primary_name" = some pn →
      answers.lookup "east_asian_name_order" = some flag →
      generate_nickname answers = Except.ok (some
        (if flag = "True" then answers.getD "additional_names" "" ++ " " ++ pn
         else pn ++ " " ++ answers.getD "additional_names" ""))) ∧
    generate_nickname [("primary_name", "Ada"), ("additional_names", "J."),
      ("east_asian_name_order", "False")] = Except.ok (some "Ada J.") ∧
    generate_nickname [("primary_name", "Ada"), ("additional_names", "J."),
      ("east_asian_name_order", "True")] = Except.ok (some "J. Ada") := by
  refine ⟨?_, ?_, ?_, rfl, rfl⟩
  · intro h
    simp [generate_nickname, h]
  · intro h₁ h₂
    cases hpn : answers.lookup "primary_name" with
    | none => exact absurd hpn h₁
    | some pn => simp [generate_nickname, hpn, h₂]
  · intro pn flag hpn hflag
    simp only [generate_nickname, hpn, hflag, Option.isNone_some, Bool.false_eq_true,
      if_false, Option.getD_some]
    by_cases hf : flag = "True" <;> simp [hf]

/-- C8 witness: the amended theorem applied at concrete answer mappings. -/
theorem C8_nickname_amended_witness :
    generate_nickname [("east_asian_name_order", "True")] = Except.ok none ∧
    generate_nickname [("primary_name", "Ada")] =
      Except.error "east_asian_name_order" ∧
    generate_nickname [("primary_name", "Ada"), ("east_asian_name_order", "True")] =
      Except.ok (some " Ada") :=
  ⟨(C8_nickname_amended [("east_asian_name_order", "True")]).1 rfl,
   (C8_nickname_amended [("primary_name", "Ada")]).2.1 (by decide) rfl,
   ((C8_nickname_amended [("primary_name", "Ada"), ("east_asian_name_order", "True")]).2.2.1
      "Ada" "True" rfl rfl).trans (by rfl)⟩

/-! ## Claim C10 — team answer is mandatory for team-member items -/

theorem foldlM_roleStep_error {answers : AnswerMap}
    (hteam : answers.lookup "team" = none) :
    ∀ (items : List Int) (init : List Int),
      (∃ i ∈ items, i ∈ ITEM_IDS_team_member) →
      items.foldlM (roleStep answers) init = Except.error "team" := by
  intro items
  induction items with
  | nil => intro init h; simp at h
  | cons x xs ih =>
    intro init h
    rw [List.foldlM_cons]
    by_cases hx : x ∈ ITEM_IDS_team_member
    · have hstep : roleStep answers init x = Except.error "team" := by
        simp [roleStep, hx, hteam]
      rw [hstep]
      rfl
    · cases hstep : roleStep answers init x with
      | error e =>
        simp [roleStep, if_neg hx, except_pure_eq, except_bind_ok] at hstep
      | ok v =>
        show List.foldlM (roleStep answers) v xs = Except.error "team"
        apply ih
        rcases h with ⟨i, hi, hmem⟩
        rcases List.mem_cons.mp hi with rfl | hi'
        · exact absurd hmem hx
        · exact ⟨i, hi', hmem⟩

/-- C10: buying a team-member item makes the `"team"` answer mandatory: for
every purchased-item set containing a team-membership item id, role derivation
raises `KeyError("team")` when the answers mapping has no `"team"` key — the
absence is not treated as contributing no roles. -/
theorem C10_team_answer_mandatory (items : List Int) (answers : AnswerMap)
    (hitem : ∃ i ∈ items, i ∈ ITEM_IDS_team_member)
    (hteam : answers.lookup "team" = none) :
    generate_role_list items answers = Except.error "team" := by
  unfold generate_role_list
  rw [foldlM_roleStep_error hteam items [] hitem]
  rfl

/-- C10 witness: item 569202 is a team-member item and an empty answers
mapping makes role derivation fail with `KeyError("team")`. -/
theorem C10_team_answer_mandatory_witness :
    (∃ i ∈ ([569202] : List Int), i ∈ ITEM_IDS_team_member) ∧
    AnswerMap.lookup [] "team" = none ∧
    generate_role_list [569202] [] = Except.error "team" :=
  ⟨by decide, rfl, C10_team_answer_mandatory [569202] [] (by decide) rfl⟩

/-! ## Claim C2 — the active-record statements are never registered -/

/-- C2: the claim states that obtaining `SelectActive` (for `begin`) and
`InsertActive` (for `complete`) from the store setup never fails; false on the
code: `database_setup` registers factories only for `Connection`,
`InsertPending`, `SelectPendingByStateToken` and `DeletePending`, so
`services.aget(database.SelectActive)` in `join` and
`services.aget(database.InsertActive)` in `redirect` raise
`ServiceNotFoundError` on every request. -/
theorem C2_active_statements_unregistered :
    aget lifespan_registered ServiceKey.selectActiveKey =
      Except.error ServiceKey.selectActiveKey ∧
    aget lifespan_registered ServiceKey.insertActiveKey =
      Except.error ServiceKey.insertActiveKey ∧
    ServiceKey.selectActiveKey ∉ database_setup_registered ∧
    ServiceKey.insertActiveKey ∉ database_setup_registered :=
  ⟨rfl, rfl, by decide, by decide⟩

/-! ## State-machine helper lemmas -/

/-- Running `redirect` with an unknown token: invalid state, store untouched. -/
theorem redirect_of_none (c : Settings) (s : Store) (state : String)
    (link : Except Unit String) (grantOk : Bool) (now : Int)
    (h : selectPendingByStateToken s state = none) :
    redirect c s state link grantOk now = (CompleteOutcome.invalidToken, s) := by
  simp [redirect, h]

/-- Whatever happens after the lookup, the pending table of the store
`redirect` returns is the one left by the delete. -/
theorem redirect_snd_pending (c : Settings) (s : Store) (state : String)
    (link : Except Unit String) (grantOk : Bool) (now : Int) {row : PendingRow}
    (h : selectPendingByStateToken s state = some row) :
    (redirect c s state link grantOk now).2.pending =
      (deletePending s row.order_code row.position).pending := by
  simp only [redirect, h]
  by_cases hexp : now - row.created > STATE_TOKEN_LIFETIME
  · simp [hexp]
  · cases link with
    | error e => simp [hexp]
    | ok did => cases grantOk <;> simp [hexp, insertActive_pending]

/-! ## Claim C5 — begin short-circuits on an Active row -/

/-- C5: for an identity that already has an Active row, `join` returns the
already-active redirect, issues no state token, creates no pending row and
leaves the store untouched — the pending upsert is not executed. -/
theorem C5_already_active (s : Store) (oc : String) (pos : Int) (items : List Int)
    (answers : AnswerMap) (t : String) (now : Int) (a : ActiveRow)
    (ha : selectActive s oc pos = some a) :
    join s oc pos items answers t now = Except.ok (BeginOutcome.alreadyActive, s) := by
  simp [join, ha]

/-- Concrete rows reused by the state-machine witnesses. -/
def witnessActiveRow : ActiveRow :=
  { order_code := "ABC1", position := 1, discord_id := "99", created := 0,
    nickname := none, roles := [] }

def witnessPendingRow : PendingRow :=
  { order_code := "ABC1", position := 1, state_token := "tok", created := 0,
    nickname := some "Ada", roles := [5] }

/-- C5 witness: a store holding an Active row for `("ABC1", 1)`. -/
theorem C5_already_active_witness :
    selectActive ⟨[], [witnessActiveRow]⟩ "ABC1" 1 = some witnessActiveRow ∧
    join ⟨[], [witnessActiveRow]⟩ "ABC1" 1 [] [] "tok" 0 =
      Except.ok (BeginOutcome.alreadyActive, ⟨[], [witnessActiveRow]⟩) :=
  ⟨rfl, C5_already_active ⟨[], [witnessActiveRow]⟩ "ABC1" 1 [] [] "tok" 0
    witnessActiveRow rfl⟩

/-! ## Claim C6 — the expiry threshold is the fixed 30-minute constant -/

/-- C6: the expiry threshold used by `redirect` is the module-level constant
of 30 minutes; the `Settings.state_token_lifetime` field (default 1800
minutes) never influences the Expired/not-Expired decision: any two
configurations yield identical behaviour, and with a found pending row the
outcome is `expired` exactly when the row is older than 30 minutes. -/
theorem C6_expiry_uses_module_constant (c₁ c₂ : Settings) (s : Store)
    (state : String) (link : Except Unit String) (grantOk : Bool) (now : Int)
    (row : PendingRow) (hrow : selectPendingByStateToken s state = some row) :
    STATE_TOKEN_LIFETIME = 30 * 60 ∧
    defaultSettings.state_token_lifetime = 1800 * 60 ∧
    redirect c₁ s state link grantOk now = redirect c₂ s state link grantOk now ∧
    ((redirect c₁ s state link grantOk now).1 = CompleteOutcome.expired ↔
      now - row.created > 30 * 60) := by
  refine ⟨rfl, rfl, rfl, ?_⟩
  rw [show (30 * 60 : Int) = STATE_TOKEN_LIFETIME from rfl]
  simp only [redirect, hrow]
  by_cases hexp : now - row.created > STATE_TOKEN_LIFETIME
  · simp only [if_pos hexp]
    exact iff_of_true trivial hexp
  · simp only [if_neg hexp]
    cases link with
    | error e => exact iff_of_false (by simp) hexp
    | ok did => cases grantOk <;> exact iff_of_false (by simp) hexp

/-- C6 witness: a fresh pending row; two configurations that disagree on
`state_token_lifetime` behave identically. -/
theorem C6_expiry_uses_module_constant_witness :
    selectPendingByStateToken ⟨[witnessPendingRow], []⟩ "tok" = some witnessPendingRow ∧
    (STATE_TOKEN_LIFETIME = 30 * 60 ∧
     defaultSettings.state_token_lifetime = 1800 * 60 ∧
     redirect { state_token_lifetime := 60 } ⟨[witnessPendingRow], []⟩ "tok"
         (Except.ok "99") true 0 =
       redirect { state_token_lifetime := 999999 } ⟨[witnessPendingRow], []⟩ "tok"
         (Except.ok "99") true 0 ∧
     ((redirect { state_token_lifetime := 60 } ⟨[witnessPendingRow], []⟩ "tok"
         (Except.ok "99") true 0).1 = CompleteOutcome.expired ↔
       (0 : Int) - witnessPendingRow.created > 30 * 60)) :=
  ⟨rfl, C6_expiry_uses_module_constant { state_token_lifetime := 60 }
    { state_token_lifetime := 999999 } ⟨[witnessPendingRow], []⟩ "tok"
    (Except.ok "99") true 0 witnessPendingRow rfl⟩

/-! ## Claim C4 — expiry consumes the token without side effects -/

/-- C4: when the pending row found by the token is older than the lifetime,
the outcome is `expired`, the active table is untouched, the pending row is
nonetheless gone, and the result does not depend on the external linking and
grant parameters (no external call is made). -/
theorem C4_expired_consumes_token (c : Settings) (s : Store) (state : String)
    (link : Except Unit String) (grantOk : Bool) (now : Int) (row : PendingRow)
    (hrow : selectPendingByStateToken s state = some row)
    (hexp : now - row.created > STATE_TOKEN_LIFETIME) :
    redirect c s state link grantOk now =
      (CompleteOutcome.expired, deletePending s row.order_code row.position) ∧
    (redirect c s state link grantOk now).2.active = s.active ∧
    row ∉ (redirect c s state link grantOk now).2.pending ∧
    ∀ (l : Except Unit String) (g : Bool),
      redirect c s state l g now = redirect c s state link grantOk now := by
  have hred : ∀ (l : Except Unit String) (g : Bool),
      redirect c s state l g now =
        (CompleteOutcome.expired, deletePending s row.order_code row.position) := by
    intro l g
    simp [redirect, hrow, hexp]
  refine ⟨hred link grantOk, ?_, ?_, fun l g => (hred l g).trans (hred link grantOk).symm⟩
  · rw [hred link grantOk]
    rfl
  · rw [hred link grantOk]
    show row ∉ (deletePending s row.order_code row.position).pending
    simp [deletePending, List.mem_filter, pendingRow_hasKey_self]

/-- C4 witness: the pending row created at time 0, completed at time 100000
(well past 1800 seconds). -/
theorem C4_expired_consumes_token_witness :
    ((100000 : Int) - witnessPendingRow.created > STATE_TOKEN_LIFETIME) ∧
    redirect defaultSettings ⟨[witnessPendingRow], []⟩ "tok" (Except.ok "99") true 100000 =
      (CompleteOutcome.expired, deletePending ⟨[witnessPendingRow], []⟩ "ABC1" 1) ∧
    witnessPendingRow ∉
      (redirect defaultSettings ⟨[witnessPendingRow], []⟩ "tok"
        (Except.ok "99") true 100000).2.pending :=
  ⟨by decide,
   (C4_expired_consumes_token defaultSettings ⟨[witnessPendingRow], []⟩ "tok"
      (Except.ok "99") true 100000 witnessPendingRow rfl (by decide)).1,
   (C4_expired_consumes_token defaultSettings ⟨[witnessPendingRow], []⟩ "tok"
      (Except.ok "99") true 100000 witnessPendingRow rfl (by decide)).2.2.1⟩

/-! ## Claim C9 — the Active row carries the pending record's fields -/

/-- C9: whenever `redirect` reaches the success step (token found, not
expired, linking returned an account id), the Active row it writes carries
the `created` timestamp, `nickname` and `roles` of the consumed pending
record — in particular `created` is the original pending creation time, not
the completion time `now`. -/
theorem C9_active_row_carries_pending (c : Settings) (s : Store) (state : String)
    (did : String) (grantOk : Bool) (now : Int) (row : PendingRow)
    (hrow : selectPendingByStateToken s state = some row)
    (hexp : ¬ now - row.created > STATE_TOKEN_LIFETIME) :
    selectActive (redirect c s state (Except.ok did) grantOk now).2
        row.order_code row.position =
      some { order_code := row.order_code, position := row.position,
             discord_id := did, created := row.created,
             nickname := row.nickname, roles := row.roles } := by
  have hstore : (redirect c s state (Except.ok did) grantOk now).2 =
      insertActive (deletePending s row.order_code row.position)
        { order_code := row.order_code, position := row.position, discord_id := did,
          created := row.created, nickname := row.nickname, roles := row.roles } := by
    cases grantOk <;> simp [redirect, hrow, hexp]
  rw [hstore]
  exact find?_insertActive_eq_self _ _

/-- C9 witness: completing at time 100 a pending row created at time 0 writes
an Active row whose `created` is 0. -/
theorem C9_active_row_carries_pending_witness :
    (¬ (100 : Int) - witnessPendingRow.created > STATE_TOKEN_LIFETIME) ∧
    selectActive (redirect defaultSettings ⟨[witnessPendingRow], []⟩ "tok"
        (Except.ok "99") true 100).2 "ABC1" 1 =
      some { order_code := "ABC1", position := 1, discord_id := "99",
             created := 0, nickname := some "Ada", roles := [5] } :=
  ⟨by decide,
   C9_active_row_carries_pending defaultSettings ⟨[witnessPendingRow], []⟩ "tok"
     "99" true 100 witnessPendingRow rfl (by decide)⟩

/-! ## Claim C1 — a looked-up state token is single-use -/

/-- C1: `redirect` deletes the pending row right after a successful lookup and
before the expiry check or any external call, so a state token is single-use
regardless of outcome: once one `redirect` call has looked up a token (the
token being unique among pending rows, as the spec assumes), the resulting
store has no pending row for it and every later `redirect` with the same
token returns invalid-state and leaves the store unchanged — it can never
succeed. -/
theorem C1_token_single_use (c : Settings) (s : Store) (state : String)
    (link : Except Unit String) (grantOk : Bool) (now : Int) (row : PendingRow)
    (hrow : selectPendingByStateToken s state = some row)
    (huniq : (tokenRows s state).length ≤ 1) :
    selectPendingByStateToken (redirect c s state link grantOk now).2 state = none ∧
    ∀ (d : Settings) (l : Except Unit String) (g : Bool) (m : Int),
      redirect d (redirect c s state link grantOk now).2 state l g m =
        (CompleteOutcome.invalidToken, (redirect c s state link grantOk now).2) := by
  have hrowtok : row.state_token = state := by
    have := List.find?_some hrow
    simpa using this
  have hrowmem : row ∈ tokenRows s state :=
    List.mem_filter.mpr ⟨List.mem_of_find?_eq_some hrow, by simp [hrowtok]⟩
  have hnone : selectPendingByStateToken (redirect c s state link grantOk now).2 state = none := by
    show (redirect c s state link grantOk now).2.pending.find? _ = none
    rw [redirect_snd_pending c s state link grantOk now hrow, List.find?_eq_none]
    intro p hp
    simp only [deletePending, List.mem_filter] at hp
    intro htok
    have hptok : p.state_token = state := by simpa using htok
    have hpmem : p ∈ tokenRows s state := List.mem_filter.mpr ⟨hp.1, by simp [hptok]⟩
    have hpr : p = row := mem_eq_of_length_le_one huniq hpmem hrowmem
    rw [hpr] at hp
    exact absurd (pendingRow_hasKey_self row) (by simpa using hp.2)
  exact ⟨hnone, fun d l g m => redirect_of_none d _ state l g m hnone⟩

/-- C1 witness: after one complete on a fresh single-row store, a second
complete with the same token is invalid and changes nothing. -/
theorem C1_token_single_use_witness :
    selectPendingByStateToken ⟨[witnessPendingRow], []⟩ "tok" = some witnessPendingRow ∧
    (tokenRows ⟨[witnessPendingRow], []⟩ "tok").length ≤ 1 ∧
    selectPendingByStateToken
      (redirect defaultSettings ⟨[witnessPendingRow], []⟩ "tok"
        (Except.ok "99") true 100).2 "tok" = none ∧
    redirect defaultSettings
        (redirect defaultSettings ⟨[witnessPendingRow], []⟩ "tok"
          (Except.ok "99") true 100).2 "tok" (Except.ok "99") true 200 =
      (CompleteOutcome.invalidToken,
       (redirect defaultSettings ⟨[witnessPendingRow], []⟩ "tok"
         (Except.ok "99") true 100).2) :=
  ⟨rfl, by decide,
   (C1_token_single_use defaultSettings ⟨[witnessPendingRow], []⟩ "tok"
      (Except.ok "99") true 100 witnessPendingRow rfl (by decide)).1,
   (C1_token_single_use defaultSettings ⟨[witnessPendingRow], []⟩ "tok"
      (Except.ok "99") true 100 witnessPendingRow rfl (by decide)).2
     defaultSettings (Except.ok "99") true 200⟩

/-! ## Claim C3 — at most one pending row per identity; last token wins -/

/-- C3: calling `join` twice for the same identity before any complete (with
fresh, distinct tokens) leaves exactly one pending row for that identity —
the upsert on the composite key overwrites the prior row — and only the
second call's token is honored by `redirect`: the lookup for the first token
finds nothing and completing with it returns invalid-state, while the lookup
for the second token finds the surviving row. -/
theorem C3_begin_twice (s : Store) (oc : String) (pos : Int) (items : List Int)
    (answers : AnswerMap) (t₁ t₂ : String) (now₁ now₂ : Int)
    (nick : Option String) (roles : List Int)
    (hactive : selectActive s oc pos = none)
    (hfresh₁ : ∀ p ∈ s.pending, p.state_token ≠ t₁)
    (hfresh₂ : ∀ p ∈ s.pending, p.state_token ≠ t₂)
    (hne : t₁ ≠ t₂)
    (hn : generate_nickname answers = Except.ok nick)
    (hr : generate_role_list items answers = Except.ok roles) :
    ∃ s₁ s₂ : Store,
      join s oc pos items answers t₁ now₁ = Except.ok (BeginOutcome.started t₁, s₁) ∧
      join s₁ oc pos items answers t₂ now₂ = Except.ok (BeginOutcome.started t₂, s₂) ∧
      keyCount s₂ oc pos = 1 ∧
      selectPendingByStateToken s₂ t₁ = none ∧
      selectPendingByStateToken s₂ t₂ =
        some { order_code := oc, position := pos, state_token := t₂,
               created := now₂, nickname := nick, roles := roles } ∧
      ∀ (c : Settings) (l : Except Unit String) (g : Bool) (m : Int),
        redirect c s₂ t₁ l g m = (CompleteOutcome.invalidToken, s₂) := by
  set row₁ : PendingRow :=
    { order_code := oc, position := pos, state_token := t₁,
      created := now₁, nickname := nick, roles := roles } with hrow₁
  set row₂ : PendingRow :=
    { order_code := oc, position := pos, state_token := t₂,
      created := now₂, nickname := nick, roles := roles } with hrow₂
  refine ⟨insertPending s row₁, insertPending (insertPending s row₁) row₂, ?_, ?_, ?_, ?_, ?_, ?_⟩
  · simp [join, hactive, hn, hr, except_bind_ok, except_pure_eq]
  · have hactive₁ : selectActive (insertPending s row₁) oc pos = none := hactive
    simp [join, hactive₁, hn, hr, except_bind_ok, except_pure_eq]
  · exact keyCount_insertPending (insertPending s row₁) row₂
  · rw [selectPendingByStateToken, List.find?_eq_none]
    intro p hp
    rcases mem_insertPending hp with rfl | ⟨hp₁, hpk⟩
    · simp [hrow₂, Ne.symm hne]
    · rcases mem_insertPending hp₁ with rfl | ⟨hps, _⟩
      · exact absurd (pendingRow_hasKey_self row₁) (by simpa [hrow₂, hrow₁] using hpk)
      · simp [hfresh₁ p hps]
  · refine find?_insertPending_eq_self (by simp [hrow₂]) ?_
    intro p hp hpk
    rcases mem_insertPending hp with rfl | ⟨hps, _⟩
    · exact absurd (pendingRow_hasKey_self row₁) (by simpa [hrow₂, hrow₁] using hpk)
    · simp [hfresh₂ p hps]
  · intro c l g m
    apply redirect_of_none
    rw [selectPendingByStateToken, List.find?_eq_none]
    intro p hp
    rcases mem_insertPending hp with rfl | ⟨hp₁, hpk⟩
    · simp [hrow₂, Ne.symm hne]
    · rcases mem_insertPending hp₁ with rfl | ⟨hps, _⟩
      · exact absurd (pendingRow_hasKey_self row₁) (by simpa [hrow₂, hrow₁] using hpk)
      · simp [hfresh₁ p hps]

/-- C3 witness: two begins on an empty store for `("ABC1", 1)` with tokens
`"a"` then `"b"`. -/
theorem C3_begin_twice_witness :
    ∃ s₁ s₂ : Store,
      join ⟨[], []⟩ "ABC1" 1 [] [] "a" 0 = Except.ok (BeginOutcome.started "a", s₁) ∧
      join s₁ "ABC1" 1 [] [] "b" 5 = Except.ok (BeginOutcome.started "b", s₂) ∧
      keyCount s₂ "ABC1" 1 = 1 ∧
      selectPendingByStateToken s₂ "a" = none ∧
      selectPendingByStateToken s₂ "b" =
        some { order_code := "ABC1", position := 1, state_token := "b",
               created := 5, nickname := none, roles := [] } ∧
      ∀ (c : Settings) (l : Except Unit String) (g : Bool) (m : Int),
        redirect c s₂ "a" l g m = (CompleteOutcome.invalidToken, s₂) :=
  C3_begin_twice ⟨[], []⟩ "ABC1" 1 [] [] "a" "b" 0 5 none []
    rfl (by simp) (by simp) (by decide) rfl rfl

end Precord
